import Mathlib

/-!
# Verification of the flask-movie_actors integrity engine

Shallow embedding of the data-integrity core of the `Rubsun/flask-movie_actors`
repository: the Actor / Film / FilmActor entity store (`model.py`) and the
create / update / delete operations of the view layer (`views/actors.py`,
`views/films.py`), plus the rating-lookup collaborator (`utils.py`).

Primary keys (UUIDs in the source) are modelled as natural numbers drawn from a
fresh-id counter `nextId`.  Each mutating operation returns the committed store
together with the outcome of the call: `Except EngineError Unit` mirrors the
werkzeug exceptions `NotFound` / `Conflict` escaping the handler, and the store
component of the result is the state that is committed at the moment the
handler finishes (normally or by raising), so that atomicity/rollback claims
are real statements rather than artefacts of the result type.
-/

/-- A row of the `actor` table (`model.py`, class `Actor`). -/
structure Actor where
  id : Nat
  first_name : String
  last_name : String
  age : Nat
deriving Repr, DecidableEq

/-- A row of the `film` table (`model.py`, class `Film`). -/
structure Film where
  id : Nat
  title : String
  description : String
  year : Nat
deriving Repr, DecidableEq

/-- A row of the `film_actor` association table (`model.py`, class `FilmActor`). -/
structure FilmActor where
  id : Nat
  film_id : Nat
  actor_id : Nat
deriving Repr, DecidableEq

/-- The entity store: the three tables plus the fresh primary-key counter. -/
structure Store where
  actors : List Actor
  films : List Film
  filmActors : List FilmActor
  nextId : Nat
deriving Repr, DecidableEq

/-- The two domain error kinds of the integrity engine: the werkzeug
`NotFound` and `Conflict` exceptions raised by the handlers, carrying their
message string. -/
inductive EngineError where
  | notFound (msg : String)
  | conflict (msg : String)
deriving Repr, DecidableEq

/-- Well-formedness of a store: primary keys are unique per table, the
`(film_id, actor_id)` pairs of the association table are unique
(`film_actor_combines_unique`), every id in use is below the fresh-id
counter, and associations reference existing rows (foreign keys). -/
def Store.WF (s : Store) : Prop :=
  (s.actors.map Actor.id).Nodup ∧
  (s.films.map Film.id).Nodup ∧
  (s.filmActors.map FilmActor.id).Nodup ∧
  (s.filmActors.map (fun fa => (fa.film_id, fa.actor_id))).Nodup ∧
  (∀ a ∈ s.actors, a.id < s.nextId) ∧
  (∀ f ∈ s.films, f.id < s.nextId) ∧
  (∀ fa ∈ s.filmActors, fa.id < s.nextId) ∧
  (∀ fa ∈ s.filmActors, ∃ f ∈ s.films, f.id = fa.film_id) ∧
  (∀ fa ∈ s.filmActors, ∃ a ∈ s.actors, a.id = fa.actor_id)

instance (s : Store) : Decidable s.WF := by
  unfold Store.WF; infer_instance

/-- Message of the `NotFound` raised when an actor id does not resolve
(`views/actors.py` lines 131 and 190, `views/films.py` line 228). -/
def actorNotFoundMsg (actor_id : Nat) : String :=
  "Actor with id \"" ++ toString actor_id ++ "\" not found!"

/-- Message of the `NotFound` raised when a film id does not resolve
(`views/films.py` lines 147 and 200). -/
def filmNotFoundMsg (film_id : Nat) : String :=
  "Film with id \"" ++ toString film_id ++ "\" not found!"

/-- Message of the `NotFound` raised when no association row exists for a
`(film_id, actor_id)` pair (`views/films.py` line 234). -/
def assocNotFoundMsg (film_id actor_id : Nat) : String :=
  "Film with id \"" ++ toString film_id ++ "\" not found for actor with id \"" ++
    toString actor_id ++ "\"!"

/-- Embedding of `views/actors.py` `add_actor` (POST branch): look the actor up by the
unique `(first_name, last_name, age)` triple; if absent, create and commit a
new `Actor`.  Returns the committed store and the resolved actor
(lookup-or-insert; the spec calls this `find_or_create_actor`). -/
def add_actor (s : Store) (first_name last_name : String) (age : Nat) :
    Store × Actor :=
  match s.actors.find? (fun a =>
      a.first_name == first_name && a.last_name == last_name && a.age == age) with
  | some actor => (s, actor)
  | none =>
      let actor : Actor := ⟨s.nextId, first_name, last_name, age⟩
      ({ s with actors := s.actors ++ [actor], nextId := s.nextId + 1 }, actor)

/-- Embedding of `views/actors.py` `update_actor` (POST branch): `NotFound` if `actor_id`
does not resolve; `Conflict` if any actor (the target not excluded) already
carries the new triple; otherwise `UPDATE actor SET ... WHERE id = actor_id`
and commit. -/
def update_actor (s : Store) (actor_id : Nat)
    (first_name last_name : String) (new_age : Nat) :
    Store × Except EngineError Unit :=
  match s.actors.find? (fun a => a.id == actor_id) with
  | none =>
      (s, .error (.notFound (actorNotFoundMsg actor_id)))
  | some _ =>
      match s.actors.find? (fun a =>
          a.first_name == first_name && a.last_name == last_name && a.age == new_age) with
      | some _ =>
          (s, .error (.conflict ("Actor \"" ++ first_name ++ " " ++ last_name ++
            "\" with age " ++ toString new_age ++ " already exists!")))
      | none =>
          ({ s with actors := s.actors.map (fun a =>
              if a.id == actor_id then ⟨a.id, first_name, last_name, new_age⟩ else a) },
            .ok ())

/-- Embedding of `views/actors.py` `delete_actor` (POST branch): `NotFound` if `actor_id`
does not resolve.  Two-phase algorithm: first the census — for every
`FilmActor` row of the actor, resolve its film and mark it if its *total*
associated-actor count equals exactly 1; then delete every `FilmActor` row of
the actor (bulk), delete each marked film (by primary key), and delete the
actor, committing once. -/
def delete_actor (s : Store) (actor_id : Nat) :
    Store × Except EngineError Unit :=
  match s.actors.find? (fun a => a.id == actor_id) with
  | none =>
      (s, .error (.notFound (actorNotFoundMsg actor_id)))
  | some actor =>
      let films_to_delete : List Film :=
        ((s.filmActors.filter (fun fa => fa.actor_id == actor.id)).filterMap
          (fun fa => s.films.find? (fun f => f.id == fa.film_id))).filter
          (fun film => (s.filmActors.filter (fun fa => fa.film_id == film.id)).length == 1)
      ({ s with
          filmActors := s.filmActors.filter (fun fa => !(fa.actor_id == actor.id)),
          films := s.films.filter (fun f => !(films_to_delete.any (fun g => g.id == f.id))),
          actors := s.actors.filter (fun a => !(a.id == actor.id)) },
        .ok ())

/-- The film titles currently associated with the actor of id `actor_id`:
`[film_actor.film for film_actor in actor.films]` followed by taking `.title`
(`views/films.py`, `add_film`, lines 96-97).  Each association row resolves
its film through the `film_id` foreign key. -/
def actorFilmTitles (s : Store) (actor_id : Nat) : List String :=
  ((s.filmActors.filter (fun fa => fa.actor_id == actor_id)).filterMap
    (fun fa => s.films.find? (fun f => f.id == fa.film_id))).map Film.title

/-- Embedding of `views/films.py` `add_film` (POST branch; the spec calls this
`add_film_for_actor`): resolve the actor by the unique triple, `NotFound` if
absent; `Conflict` if `title` is already among that actor's film titles;
otherwise resolve the film by `(title, year)` lookup-or-insert (the insert is
committed immediately, source line 113) and insert the `FilmActor`
association, committing again. -/
def add_film (s : Store) (first_name last_name : String) (age : Nat)
    (title description : String) (year : Nat) :
    Store × Except EngineError Unit :=
  match s.actors.find? (fun a =>
      a.first_name == first_name && a.last_name == last_name && a.age == age) with
  | none =>
      (s, .error (.notFound ("Actor with name \"" ++ first_name ++ "\" not found")))
  | some actor =>
      if title ∈ actorFilmTitles s actor.id then
        (s, .error (.conflict ("This actor has already a film \"" ++ title ++
          "\" in " ++ toString year ++ "!")))
      else
        match s.films.find? (fun f => f.title == title && f.year == year) with
        | some film =>
            ({ s with
                filmActors := s.filmActors ++ [⟨s.nextId, film.id, actor.id⟩],
                nextId := s.nextId + 1 },
              .ok ())
        | none =>
            let film : Film := ⟨s.nextId, title, description, year⟩
            let s1 : Store :=
              { s with films := s.films ++ [film], nextId := s.nextId + 1 }
            ({ s1 with
                filmActors := s1.filmActors ++ [⟨s1.nextId, film.id, actor.id⟩],
                nextId := s1.nextId + 1 },
              .ok ())

/-- Embedding of `views/films.py` `update_film` (POST branch): `NotFound` if `film_id`
does not resolve; `Conflict` if any film (the target not excluded) already
carries the new `(title, year)` pair; otherwise
`UPDATE film SET ... WHERE id = film_id` and commit. -/
def update_film (s : Store) (film_id : Nat)
    (title description : String) (year : Nat) :
    Store × Except EngineError Unit :=
  match s.films.find? (fun f => f.id == film_id) with
  | none =>
      (s, .error (.notFound (filmNotFoundMsg film_id)))
  | some _ =>
      match s.films.find? (fun f => f.title == title && f.year == year) with
      | some _ =>
          (s, .error (.conflict ("Film with title: \"" ++ title ++ "\" with " ++
            toString year ++ " already exists!")))
      | none =>
          ({ s with films := s.films.map (fun f =>
              if f.id == film_id then ⟨f.id, title, description, year⟩ else f) },
            .ok ())

/-- Embedding of `views/films.py` `delete_film`: `NotFound` if `film_id` does not resolve;
otherwise delete every `FilmActor` row referencing the film (bulk), then
delete the film itself (by primary key), and commit.  No further cascade:
the actor table is untouched. -/
def delete_film (s : Store) (film_id : Nat) :
    Store × Except EngineError Unit :=
  match s.films.find? (fun f => f.id == film_id) with
  | none =>
      (s, .error (.notFound (filmNotFoundMsg film_id)))
  | some film =>
      ({ s with
          filmActors := s.filmActors.filter (fun fa => !(fa.film_id == film.id)),
          films := s.films.filter (fun f => !(f.id == film.id)) },
        .ok ())

/-- Embedding of `views/films.py` `delete_film_by_actor` (the spec calls this
`delete_film_actor`): `NotFound` if `actor_id` does not resolve; `NotFound`
with a distinct message if no `FilmActor` row exists for the
`(film_id, actor_id)` pair; otherwise delete that association row (by primary
key) and commit. -/
def delete_film_by_actor (s : Store) (film_id actor_id : Nat) :
    Store × Except EngineError Unit :=
  match s.actors.find? (fun a => a.id == actor_id) with
  | none =>
      (s, .error (.notFound (actorNotFoundMsg actor_id)))
  | some _ =>
      match s.filmActors.find? (fun fa =>
          fa.film_id == film_id && fa.actor_id == actor_id) with
      | none =>
          (s, .error (.notFound (assocNotFoundMsg film_id actor_id)))
      | some film_actor =>
          ({ s with filmActors :=
              s.filmActors.filter (fun fa => !(fa.id == film_actor.id)) },
            .ok ())

/-! ## Rating lookup collaborator (`utils.py`) and the film detail view -/

/-- The opaque JSON payload returned by the external rating API. -/
abbrev MovieData : Type := String

/-- The outcome of the outbound `requests.get` call made by
`get_rating_movie`: either an HTTP response with a status code and body, or a
transport-level failure, which in Python surfaces as an exception raised by
`requests.get`. -/
inductive HttpOutcome where
  | response (status_code : Nat) (body : MovieData)
  | connectionError
deriving DecidableEq

/-- A transport-level exception escaping `requests.get` (e.g.
`requests.exceptions.ConnectionError`). -/
inductive NetworkError where
  | connectionError
deriving Repr, DecidableEq

/-- Constant `OK = 200` from `utils.py`. -/
def OK : Nat := 200

/-- Embedding of `utils.py` `get_rating_movie`: performs the `requests.get` call; if the
status code is `OK` (200) it returns the parsed body, otherwise it falls off
the end of the function and returns `None`.  There is no `try/except`: a
transport-level exception propagates to the caller, modelled as the `.error`
case. -/
def get_rating_movie (outcome : HttpOutcome) :
    Except NetworkError (Option MovieData) :=
  match outcome with
  | .connectionError => .error .connectionError
  | .response status_code body =>
      if status_code == OK then .ok (some body) else .ok none

/-- The rendered film detail page (`views/films.py`, `detail`): the film, its
associated actors, and the optional rating payload passed to the template. -/
structure FilmDetailPage where
  film : Film
  actors : List Actor
  movie_data : Option MovieData
deriving DecidableEq

/-- A failure of the film detail view: the explicit `NotFound` raised when the
film does not resolve, or an uncaught exception escaping
`get_rating_movie`. -/
inductive DetailFailure where
  | notFound (msg : String)
  | uncaught (e : NetworkError)
deriving DecidableEq

/-- Embedding of `views/films.py` `detail`: resolve the film by `(title, year)`,
`NotFound` if absent; then call `get_rating_movie(title)` — whose outcome is
the `outcome` parameter — and render the page with the film, its actors and
the rating payload.  An exception escaping `get_rating_movie` propagates. -/
def film_detail (s : Store) (title : String) (year : Nat)
    (outcome : HttpOutcome) : Except DetailFailure FilmDetailPage :=
  match s.films.find? (fun f => f.title == title && f.year == year) with
  | none => .error (.notFound ("Film with title: " ++ title ++ " not found!!!"))
  | some film =>
      match get_rating_movie outcome with
      | .error e => .error (.uncaught e)
      | .ok movie_data =>
          .ok ⟨film,
            (s.filmActors.filter (fun fa => fa.film_id == film.id)).filterMap
              (fun fa => s.actors.find? (fun a => a.id == fa.actor_id)),
            movie_data⟩

/-! ## Helper predicates and lemmas -/

/-- The `(first_name, last_name, age)` triple is unique across the actor
table: the content of the schema constraint `unique_actor`. -/
def TriplesUnique (s : Store) : Prop :=
  s.actors.Pairwise (fun a b =>
    ¬(a.first_name = b.first_name ∧ a.last_name = b.last_name ∧ a.age = b.age))

instance (s : Store) : Decidable (TriplesUnique s) := by
  unfold TriplesUnique; infer_instance

theorem actor_triple_beq (a : Actor) (fn ln : String) (age : Nat) :
    (a.first_name == fn && (a.last_name == ln) && (a.age == age)) = true ↔
      (a.first_name = fn ∧ a.last_name = ln ∧ a.age = age) := by
  simp [and_assoc]

/-- Lemma: `add_actor` preserves uniqueness of the actor triple. -/
theorem add_actor_preserves_triples_unique (s : Store) (fn ln : String) (age : Nat)
    (h : TriplesUnique s) : TriplesUnique (add_actor s fn ln age).1 := by
  unfold add_actor
  cases hfind : s.actors.find? (fun a =>
      a.first_name == fn && a.last_name == ln && a.age == age) with
  | some a0 => exact h
  | none =>
      have hall := List.find?_eq_none.mp hfind
      unfold TriplesUnique at h ⊢
      simp only [List.pairwise_append, List.pairwise_cons]
      refine ⟨h, by simp, ?_⟩
      intro a ha b hb
      have hb1 : b = (⟨s.nextId, fn, ln, age⟩ : Actor) := by
        simpa using hb
      subst hb1
      intro hcon
      exact hall a ha ((actor_triple_beq a fn ln age).mpr hcon)

/-! ## Claim theorems -/

/-- Claim C1: `delete_actor` on an existing actor follows the two-phase
census-then-delete algorithm; consequently, for an actor `a` linked to a film
`f1` whose sole association row is `fa1` (so `a` is its only actor) and a film
`f2` whose association rows are exactly `fa2` (actor `a`) and `fa3` (actor
`b`), after `delete_actor s a.id` the store no longer contains `f1` nor any
actor with `a`'s id, while `f2` still exists and its remaining association
rows are exactly `[fa3]`, i.e. `b` alone. -/
theorem delete_actor_cascade_spec (s : Store) (a b : Actor) (f1 f2 : Film)
    (fa1 fa2 fa3 : FilmActor)
    (ha : a ∈ s.actors) (hb : b ∈ s.actors) (hab : b.id ≠ a.id)
    (hf1 : f1 ∈ s.films) (hf2 : f2 ∈ s.films)
    (h1 : s.filmActors.filter (fun fa => fa.film_id == f1.id) = [fa1])
    (h2 : s.filmActors.filter (fun fa => fa.film_id == f2.id) = [fa2, fa3])
    (hfa1 : fa1.actor_id = a.id) (hfa2 : fa2.actor_id = a.id)
    (hfa3 : fa3.actor_id = b.id) :
    (delete_actor s a.id).2 = .ok () ∧
    f1 ∉ (delete_actor s a.id).1.films ∧
    f2 ∈ (delete_actor s a.id).1.films ∧
    (∀ x ∈ (delete_actor s a.id).1.actors, x.id ≠ a.id) ∧
    b ∈ (delete_actor s a.id).1.actors ∧
    (delete_actor s a.id).1.filmActors.filter (fun fa => fa.film_id == f2.id) = [fa3] := by
  have hsome : (s.actors.find? (fun x => x.id == a.id)).isSome = true :=
    List.find?_isSome.mpr ⟨a, ha, by simp⟩
  obtain ⟨actor, hfind⟩ := Option.isSome_iff_exists.mp hsome
  have hid : actor.id = a.id := by
    have := List.find?_some hfind
    simpa using this
  unfold delete_actor
  rw [hfind]
  simp only []
  -- membership facts extracted from the two filtered association lists
  have hm1 : fa1 ∈ s.filmActors ∧ (fa1.film_id == f1.id) = true := by
    have : fa1 ∈ s.filmActors.filter (fun fa => fa.film_id == f1.id) := by
      rw [h1]; simp
    exact List.mem_filter.mp this
  have hm2 : fa2 ∈ s.filmActors ∧ (fa2.film_id == f2.id) = true := by
    have : fa2 ∈ s.filmActors.filter (fun fa => fa.film_id == f2.id) := by
      rw [h2]; simp
    exact List.mem_filter.mp this
  have hm3 : fa3 ∈ s.filmActors ∧ (fa3.film_id == f2.id) = true := by
    have : fa3 ∈ s.filmActors.filter (fun fa => fa.film_id == f2.id) := by
      rw [h2]; simp
    exact List.mem_filter.mp this
  have hfa1f : fa1.film_id = f1.id := by simpa using hm1.2
  -- the film row resolved through fa1's foreign key
  have hg1some : (s.films.find? (fun f => f.id == fa1.film_id)).isSome = true :=
    List.find?_isSome.mpr ⟨f1, hf1, by simp [hfa1f]⟩
  obtain ⟨g1, hg1⟩ := Option.isSome_iff_exists.mp hg1some
  have hg1id : g1.id = f1.id := by
    have := List.find?_some hg1
    simp at this
    omega
  -- g1 is marked for deletion by the census
  have hg1marked : g1 ∈ ((s.filmActors.filter (fun fa => fa.actor_id == actor.id)).filterMap
      (fun fa => s.films.find? (fun f => f.id == fa.film_id))).filter
      (fun film => (s.filmActors.filter (fun fa => fa.film_id == film.id)).length == 1) := by
    apply List.mem_filter.mpr
    constructor
    · exact List.mem_filterMap.mpr ⟨fa1,
        List.mem_filter.mpr ⟨hm1.1, by simp [hfa1, hid]⟩, hg1⟩
    · rw [hg1id, h1]; rfl
  refine ⟨trivial, ?_, ?_, ?_, ?_, ?_⟩
  · -- f1 is gone
    intro hmem
    have := (List.mem_filter.mp hmem).2
    simp only [Bool.not_eq_eq_eq_not, Bool.not_true, List.any_eq_false] at this
    exact this g1 hg1marked (by simp [hg1id])
  · -- f2 survives: no marked film carries f2's id
    apply List.mem_filter.mpr
    refine ⟨hf2, ?_⟩
    simp only [Bool.not_eq_eq_eq_not, Bool.not_true, List.any_eq_false]
    intro g hg
    have hcensus := (List.mem_filter.mp hg).2
    simp only [beq_iff_eq] at hcensus ⊢
    intro hgid
    rw [hgid, h2] at hcensus
    simp at hcensus
  · -- no actor with a's id remains
    intro x hx
    have := (List.mem_filter.mp hx).2
    simpa [hid] using this
  · -- b survives
    exact List.mem_filter.mpr ⟨hb, by simp [hid, hab]⟩
  · -- f2's remaining association rows are exactly [fa3]
    rw [List.filter_filter, List.filter_congr (q := fun fa =>
        (!(fa.actor_id == actor.id)) && (fa.film_id == f2.id)) (fun x _ => by
      cases hxa : x.actor_id == actor.id <;> cases hxf : x.film_id == f2.id <;> simp_all),
      ← List.filter_filter, h2]
    have hb2 : (fa2.actor_id == actor.id) = true := by simp [hfa2, hid]
    have hb3 : (fa3.actor_id == actor.id) = false := by simp [hfa3, hid]; exact hab
    simp [List.filter, hb2, hb3]

/-- Concrete store for the C1 scenario: actor 0 is the sole actor of film 2
and shares film 3 with actor 1. -/
def C1Store : Store :=
  ⟨[⟨0, "Ann", "A", 30⟩, ⟨1, "Bob", "B", 40⟩],
   [⟨2, "F1", "d1", 2000⟩, ⟨3, "F2", "d2", 2001⟩],
   [⟨4, 2, 0⟩, ⟨5, 3, 0⟩, ⟨6, 3, 1⟩], 7⟩

theorem delete_actor_cascade_spec_witness :
    (delete_actor C1Store 0).2 = .ok () ∧
    (⟨2, "F1", "d1", 2000⟩ : Film) ∉ (delete_actor C1Store 0).1.films ∧
    (⟨3, "F2", "d2", 2001⟩ : Film) ∈ (delete_actor C1Store 0).1.films ∧
    (∀ x ∈ (delete_actor C1Store 0).1.actors, x.id ≠ 0) ∧
    (⟨1, "Bob", "B", 40⟩ : Actor) ∈ (delete_actor C1Store 0).1.actors ∧
    (delete_actor C1Store 0).1.filmActors.filter (fun fa => fa.film_id == 3) = [⟨6, 3, 1⟩] :=
  delete_actor_cascade_spec C1Store ⟨0, "Ann", "A", 30⟩ ⟨1, "Bob", "B", 40⟩
    ⟨2, "F1", "d1", 2000⟩ ⟨3, "F2", "d2", 2001⟩ ⟨4, 2, 0⟩ ⟨5, 3, 0⟩ ⟨6, 3, 1⟩
    (by decide) (by decide) (by decide) (by decide) (by decide)
    (by decide) (by decide) rfl rfl rfl

/-- Claim C5: `add_actor` (the spec's `find_or_create_actor`) is idempotent
lookup-or-insert: when some actor already carries the requested triple the
store is unchanged and an existing actor carrying the triple is returned;
when none does a fresh actor is appended; triple-uniqueness of the actor
table is preserved by one call and by any sequence of calls; no call returns
an error (the operation is total by construction: its result type carries no
error case). -/
theorem find_or_create_actor_spec (s : Store) (fn ln : String) (age : Nat) :
    ((∃ a ∈ s.actors, a.first_name = fn ∧ a.last_name = ln ∧ a.age = age) →
      (add_actor s fn ln age).1 = s ∧
      (add_actor s fn ln age).2 ∈ s.actors ∧
      (add_actor s fn ln age).2.first_name = fn ∧
      (add_actor s fn ln age).2.last_name = ln ∧
      (add_actor s fn ln age).2.age = age) ∧
    ((∀ a ∈ s.actors, ¬(a.first_name = fn ∧ a.last_name = ln ∧ a.age = age)) →
      add_actor s fn ln age =
        ({ s with
            actors := s.actors ++ [⟨s.nextId, fn, ln, age⟩],
            nextId := s.nextId + 1 },
          (⟨s.nextId, fn, ln, age⟩ : Actor))) ∧
    (TriplesUnique s → TriplesUnique (add_actor s fn ln age).1) ∧
    (∀ reqs : List (String × String × Nat), TriplesUnique s →
      TriplesUnique (reqs.foldl (fun st r => (add_actor st r.1 r.2.1 r.2.2).1) s)) := by
  refine ⟨?_, ?_, add_actor_preserves_triples_unique s fn ln age, ?_⟩
  · rintro ⟨a, ha, hfn, hln, hage⟩
    have hsome : (s.actors.find? (fun x =>
        x.first_name == fn && x.last_name == ln && x.age == age)).isSome = true :=
      List.find?_isSome.mpr ⟨a, ha, (actor_triple_beq a fn ln age).mpr ⟨hfn, hln, hage⟩⟩
    obtain ⟨a0, hfind⟩ := Option.isSome_iff_exists.mp hsome
    have hmem := List.mem_of_find?_eq_some hfind
    have htrip : a0.first_name = fn ∧ a0.last_name = ln ∧ a0.age = age := by
      simpa [and_assoc] using List.find?_some hfind
    unfold add_actor
    rw [hfind]
    exact ⟨rfl, hmem, htrip.1, htrip.2.1, htrip.2.2⟩
  · intro hall
    have hnone : s.actors.find? (fun x =>
        x.first_name == fn && x.last_name == ln && x.age == age) = none :=
      List.find?_eq_none.mpr (fun x hx hp =>
        hall x hx ((actor_triple_beq x fn ln age).mp hp))
    unfold add_actor
    rw [hnone]
  · intro reqs
    induction reqs generalizing s with
    | nil => exact fun h => h
    | cons r rs ih =>
        intro h
        exact ih (add_actor s r.1 r.2.1 r.2.2).1
          (add_actor_preserves_triples_unique s r.1 r.2.1 r.2.2 h)

/-- Concrete one-actor store for the C5 witness. -/
def C5Store : Store := ⟨[⟨0, "Ann", "A", 30⟩], [], [], 1⟩

theorem find_or_create_actor_spec_witness :
    ((add_actor C5Store "Ann" "A" 30).1 = C5Store ∧
      (add_actor C5Store "Ann" "A" 30).2 ∈ C5Store.actors ∧
      (add_actor C5Store "Ann" "A" 30).2.first_name = "Ann" ∧
      (add_actor C5Store "Ann" "A" 30).2.last_name = "A" ∧
      (add_actor C5Store "Ann" "A" 30).2.age = 30) ∧
    add_actor C5Store "Bob" "B" 40 =
      ({ C5Store with
          actors := C5Store.actors ++ [⟨C5Store.nextId, "Bob", "B", 40⟩],
          nextId := C5Store.nextId + 1 },
        (⟨C5Store.nextId, "Bob", "B", 40⟩ : Actor)) ∧
    TriplesUnique (add_actor C5Store "Ann" "A" 30).1 ∧
    TriplesUnique ([("Ann", "A", 30), ("Bob", "B", 40), ("Ann", "A", 30)].foldl
      (fun st r => (add_actor st r.1 r.2.1 r.2.2).1) C5Store) :=
  ⟨(find_or_create_actor_spec C5Store "Ann" "A" 30).1 (by decide),
   (find_or_create_actor_spec C5Store "Bob" "B" 40).2.1 (by decide),
   (find_or_create_actor_spec C5Store "Ann" "A" 30).2.2.1 (by decide),
   (find_or_create_actor_spec C5Store "Ann" "A" 30).2.2.2
     [("Ann", "A", 30), ("Bob", "B", 40), ("Ann", "A", 30)] (by decide)⟩

/-- Claim C2: every integrity-engine operation is atomic: on any failure
(`NotFound` or `Conflict`) the committed store returned with the error equals
the store before the call — no partial mutation is observable, for every
starting state and every input.  (`add_actor` never fails: its result type
has no error case, so the six fallible operations are listed.) -/
theorem engine_failure_is_rollback (s s' : Store) (e : EngineError)
    (actor_id film_id : Nat) (fn ln : String) (age : Nat)
    (t d : String) (y : Nat) :
    (add_film s fn ln age t d y = (s', .error e) → s' = s) ∧
    (update_actor s actor_id fn ln age = (s', .error e) → s' = s) ∧
    (update_film s film_id t d y = (s', .error e) → s' = s) ∧
    (delete_actor s actor_id = (s', .error e) → s' = s) ∧
    (delete_film s film_id = (s', .error e) → s' = s) ∧
    (delete_film_by_actor s film_id actor_id = (s', .error e) → s' = s) := by
  refine ⟨?_, ?_, ?_, ?_, ?_, ?_⟩
  · intro h
    unfold add_film at h
    split at h
    · exact congrArg Prod.fst h.symm
    · split at h
      · exact congrArg Prod.fst h.symm
      · split at h <;> cases congrArg Prod.snd h
  · intro h
    unfold update_actor at h
    split at h
    · exact congrArg Prod.fst h.symm
    · split at h
      · exact congrArg Prod.fst h.symm
      · cases congrArg Prod.snd h
  · intro h
    unfold update_film at h
    split at h
    · exact congrArg Prod.fst h.symm
    · split at h
      · exact congrArg Prod.fst h.symm
      · cases congrArg Prod.snd h
  · intro h
    unfold delete_actor at h
    split at h
    · exact congrArg Prod.fst h.symm
    · cases congrArg Prod.snd h
  · intro h
    unfold delete_film at h
    split at h
    · exact congrArg Prod.fst h.symm
    · cases congrArg Prod.snd h
  · intro h
    unfold delete_film_by_actor at h
    split at h
    · exact congrArg Prod.fst h.symm
    · split at h
      · exact congrArg Prod.fst h.symm
      · cases congrArg Prod.snd h

/-- Two-actor store for witnesses of failing calls. -/
def C2Store : Store := ⟨[⟨0, "Ann", "A", 30⟩, ⟨1, "Bob", "B", 40⟩], [], [], 2⟩

theorem engine_failure_is_rollback_witness :
    update_actor C2Store 0 "Bob" "B" 40 =
      (C2Store, .error (.conflict ("Actor \"" ++ "Bob" ++ " " ++ "B" ++
        "\" with age " ++ toString 40 ++ " already exists!"))) ∧
    C2Store = C2Store :=
  ⟨rfl,
   (engine_failure_is_rollback C2Store C2Store
      (.conflict ("Actor \"" ++ "Bob" ++ " " ++ "B" ++ "\" with age " ++
        toString 40 ++ " already exists!"))
      0 0 "Bob" "B" 40 "t" "d" 2000).2.1 rfl⟩

/-- Claim C7: `delete_film` fails with `NotFound` (store unchanged) when
`film_id` does not resolve; otherwise it succeeds, deletes every association
row referencing the film and the film row itself, keeps every other film and
every other association, and leaves the actor table exactly as it was —
actors are never auto-deleted via film deletion. -/
theorem delete_film_spec (s : Store) (film_id : Nat) :
    ((∀ f ∈ s.films, f.id ≠ film_id) →
      delete_film s film_id = (s, .error (.notFound (filmNotFoundMsg film_id)))) ∧
    (∀ film, s.films.find? (fun f => f.id == film_id) = some film →
      (delete_film s film_id).2 = .ok () ∧
      (delete_film s film_id).1.actors = s.actors ∧
      (∀ fa ∈ (delete_film s film_id).1.filmActors, fa.film_id ≠ film.id) ∧
      (∀ fa ∈ s.filmActors, fa.film_id ≠ film.id →
        fa ∈ (delete_film s film_id).1.filmActors) ∧
      (∀ g ∈ (delete_film s film_id).1.films, g.id ≠ film.id) ∧
      (∀ g ∈ s.films, g.id ≠ film.id → g ∈ (delete_film s film_id).1.films)) := by
  constructor
  · intro hall
    have hnone : s.films.find? (fun f => f.id == film_id) = none :=
      List.find?_eq_none.mpr (fun f hf hp => hall f hf (by simpa using hp))
    unfold delete_film
    rw [hnone]
  · intro film hfind
    unfold delete_film
    rw [hfind]
    refine ⟨rfl, rfl, ?_, ?_, ?_, ?_⟩
    · intro fa hfa
      have := (List.mem_filter.mp hfa).2
      simpa using this
    · intro fa hfa hne
      exact List.mem_filter.mpr ⟨hfa, by simpa using hne⟩
    · intro g hg
      have := (List.mem_filter.mp hg).2
      simpa using this
    · intro g hg hne
      exact List.mem_filter.mpr ⟨hg, by simpa using hne⟩

/-- Store for the C7 witness: films 2 and 3, actors 0 and 1; film 2 is actor
0's only film. -/
def C7Store : Store :=
  ⟨[⟨0, "Ann", "A", 30⟩, ⟨1, "Bob", "B", 40⟩],
   [⟨2, "F1", "d1", 2000⟩, ⟨3, "F2", "d2", 2001⟩],
   [⟨4, 2, 0⟩, ⟨5, 3, 1⟩], 6⟩

theorem delete_film_spec_witness :
    delete_film C7Store 9 = (C7Store, .error (.notFound (filmNotFoundMsg 9))) ∧
    ((delete_film C7Store 2).2 = .ok () ∧
      (delete_film C7Store 2).1.actors = C7Store.actors ∧
      (∀ fa ∈ (delete_film C7Store 2).1.filmActors,
        fa.film_id ≠ (⟨2, "F1", "d1", 2000⟩ : Film).id) ∧
      (∀ fa ∈ C7Store.filmActors, fa.film_id ≠ (⟨2, "F1", "d1", 2000⟩ : Film).id →
        fa ∈ (delete_film C7Store 2).1.filmActors) ∧
      (∀ g ∈ (delete_film C7Store 2).1.films, g.id ≠ (⟨2, "F1", "d1", 2000⟩ : Film).id) ∧
      (∀ g ∈ C7Store.films, g.id ≠ (⟨2, "F1", "d1", 2000⟩ : Film).id →
        g ∈ (delete_film C7Store 2).1.films)) :=
  ⟨(delete_film_spec C7Store 9).1 (by decide),
   (delete_film_spec C7Store 2).2 ⟨2, "F1", "d1", 2000⟩ rfl⟩

theorem actorNotFoundMsg_head (actor_id : Nat) :
    (actorNotFoundMsg actor_id).data.head? = some 'A' := by
  simp [actorNotFoundMsg, String.data_append]

theorem assocNotFoundMsg_head (film_id actor_id : Nat) :
    (assocNotFoundMsg film_id actor_id).data.head? = some 'F' := by
  simp [assocNotFoundMsg, String.data_append]

/-- The two `NotFound` messages of `delete_film_by_actor` are distinct for
every choice of ids: one starts with `Actor`, the other with `Film`. -/
theorem actor_assoc_msgs_distinct (film_id actor_id aid2 : Nat) :
    actorNotFoundMsg aid2 ≠ assocNotFoundMsg film_id actor_id := by
  intro h
  have hA := actorNotFoundMsg_head aid2
  have hF := assocNotFoundMsg_head film_id actor_id
  rw [h, hF] at hA
  cases hA

/-- Claim C8: `delete_film_by_actor` (the spec's `delete_film_actor`) fails
with `NotFound` when `actor_id` does not resolve and with a distinct
`NotFound` message when no association row matches the pair, in both cases
returning the unchanged store; on success it deletes exactly the one matching
association row (under primary-key uniqueness the table shrinks by exactly
one), and the film and actor tables are untouched. -/
theorem delete_film_actor_spec (s : Store) (film_id actor_id : Nat) :
    ((∀ a ∈ s.actors, a.id ≠ actor_id) →
      delete_film_by_actor s film_id actor_id =
        (s, .error (.notFound (actorNotFoundMsg actor_id)))) ∧
    ((∃ a ∈ s.actors, a.id = actor_id) →
      (∀ fa ∈ s.filmActors, ¬(fa.film_id = film_id ∧ fa.actor_id = actor_id)) →
      delete_film_by_actor s film_id actor_id =
        (s, .error (.notFound (assocNotFoundMsg film_id actor_id)))) ∧
    actorNotFoundMsg actor_id ≠ assocNotFoundMsg film_id actor_id ∧
    ((∃ a ∈ s.actors, a.id = actor_id) →
      ∀ fa, s.filmActors.find? (fun x =>
          x.film_id == film_id && x.actor_id == actor_id) = some fa →
        (delete_film_by_actor s film_id actor_id).2 = .ok () ∧
        (delete_film_by_actor s film_id actor_id).1.films = s.films ∧
        (delete_film_by_actor s film_id actor_id).1.actors = s.actors ∧
        (delete_film_by_actor s film_id actor_id).1.filmActors =
          s.filmActors.filter (fun x => !(x.id == fa.id)) ∧
        ((s.filmActors.map FilmActor.id).Nodup →
          (delete_film_by_actor s film_id actor_id).1.filmActors.length + 1 =
            s.filmActors.length)) := by
  refine ⟨?_, ?_, actor_assoc_msgs_distinct film_id actor_id actor_id, ?_⟩
  · intro hall
    have hnone : s.actors.find? (fun a => a.id == actor_id) = none :=
      List.find?_eq_none.mpr (fun a ha hp => hall a ha (by simpa using hp))
    unfold delete_film_by_actor
    rw [hnone]
  · rintro ⟨a, ha, hid⟩ hall
    have hsome : (s.actors.find? (fun x => x.id == actor_id)).isSome = true :=
      List.find?_isSome.mpr ⟨a, ha, by simp [hid]⟩
    obtain ⟨a0, hfind⟩ := Option.isSome_iff_exists.mp hsome
    have hnone : s.filmActors.find? (fun x =>
        x.film_id == film_id && x.actor_id == actor_id) = none :=
      List.find?_eq_none.mpr (fun fa hfa hp => hall fa hfa (by simpa using hp))
    unfold delete_film_by_actor
    rw [hfind, hnone]
  · rintro ⟨a, ha, hid⟩ fa hfafind
    have hsome : (s.actors.find? (fun x => x.id == actor_id)).isSome = true :=
      List.find?_isSome.mpr ⟨a, ha, by simp [hid]⟩
    obtain ⟨a0, hfind⟩ := Option.isSome_iff_exists.mp hsome
    have hfam := List.mem_of_find?_eq_some hfafind
    unfold delete_film_by_actor
    rw [hfind, hfafind]
    refine ⟨rfl, rfl, rfl, rfl, ?_⟩
    intro hnd
    have hcount : s.filmActors.countP (fun x => x.id == fa.id) = 1 := by
      have h1 : (s.filmActors.map FilmActor.id).count fa.id = 1 :=
        List.count_eq_one_of_mem hnd (List.mem_map.mpr ⟨fa, hfam, rfl⟩)
      rw [List.count] at h1
      rw [← h1, List.countP_map]
      rfl
    have hsplit : s.filmActors.length =
        (s.filmActors.filter (fun x => x.id == fa.id)).length +
          (s.filmActors.filter (fun x => !(x.id == fa.id))).length :=
      List.length_eq_length_filter_add (fun x => x.id == fa.id)
    have hflt : (s.filmActors.filter (fun x => x.id == fa.id)).length = 1 := by
      rw [← List.countP_eq_length_filter]
      exact hcount
    simp only []
    omega

/-- Store for the C8 witness: actor 0 linked to film 1 by association row 2. -/
def C8Store : Store := ⟨[⟨0, "Ann", "A", 30⟩], [⟨1, "F1", "d1", 2000⟩], [⟨2, 1, 0⟩], 3⟩

theorem delete_film_actor_spec_witness :
    delete_film_by_actor C8Store 1 9 =
      (C8Store, .error (.notFound (actorNotFoundMsg 9))) ∧
    delete_film_by_actor C8Store 7 0 =
      (C8Store, .error (.notFound (assocNotFoundMsg 7 0))) ∧
    ((delete_film_by_actor C8Store 1 0).2 = .ok () ∧
      (delete_film_by_actor C8Store 1 0).1.films = C8Store.films ∧
      (delete_film_by_actor C8Store 1 0).1.actors = C8Store.actors ∧
      (delete_film_by_actor C8Store 1 0).1.filmActors =
        C8Store.filmActors.filter (fun x => !(x.id == (⟨2, 1, 0⟩ : FilmActor).id)) ∧
      ((C8Store.filmActors.map FilmActor.id).Nodup →
        (delete_film_by_actor C8Store 1 0).1.filmActors.length + 1 =
          C8Store.filmActors.length)) :=
  ⟨(delete_film_actor_spec C8Store 1 9).1 (by decide),
   (delete_film_actor_spec C8Store 7 0).2.1 (by decide) (by decide),
   (delete_film_actor_spec C8Store 1 0).2.2.2 (by decide) ⟨2, 1, 0⟩ rfl⟩

/-- Claim C4: `update_actor` fails with `NotFound` when the id does not
resolve; when it resolves, it fails with `Conflict` exactly when some actor
in the store — the target itself not excluded — already carries the new
triple (so re-submitting a record's own unchanged triple raises `Conflict`);
on success all three fields of the target are overwritten in place with its
id preserved.  `update_film` behaves symmetrically over `(title, year)`,
likewise without excluding the film's own id. -/
theorem update_uniqueness_spec (s : Store) (actor_id film_id : Nat)
    (fn ln : String) (age : Nat) (t d : String) (y : Nat) :
    ((∀ a ∈ s.actors, a.id ≠ actor_id) →
      update_actor s actor_id fn ln age =
        (s, .error (.notFound (actorNotFoundMsg actor_id)))) ∧
    ((∃ a ∈ s.actors, a.id = actor_id) →
      ((∃ m, (update_actor s actor_id fn ln age).2 = .error (.conflict m)) ↔
        ∃ b ∈ s.actors, b.first_name = fn ∧ b.last_name = ln ∧ b.age = age)) ∧
    (∀ a ∈ s.actors, a.id = actor_id → a.first_name = fn → a.last_name = ln →
      a.age = age →
      ∃ m, (update_actor s actor_id fn ln age).2 = .error (.conflict m)) ∧
    ((∃ a ∈ s.actors, a.id = actor_id) →
      (∀ b ∈ s.actors, ¬(b.first_name = fn ∧ b.last_name = ln ∧ b.age = age)) →
      (update_actor s actor_id fn ln age).2 = .ok () ∧
      (update_actor s actor_id fn ln age).1.actors =
        s.actors.map (fun a =>
          if a.id == actor_id then ⟨a.id, fn, ln, age⟩ else a) ∧
      (∀ a ∈ s.actors, a.id = actor_id →
        (⟨actor_id, fn, ln, age⟩ : Actor) ∈ (update_actor s actor_id fn ln age).1.actors)) ∧
    ((∀ f ∈ s.films, f.id ≠ film_id) →
      update_film s film_id t d y =
        (s, .error (.notFound (filmNotFoundMsg film_id)))) ∧
    ((∃ f ∈ s.films, f.id = film_id) →
      ((∃ m, (update_film s film_id t d y).2 = .error (.conflict m)) ↔
        ∃ g ∈ s.films, g.title = t ∧ g.year = y)) ∧
    (∀ f ∈ s.films, f.id = film_id → f.title = t → f.year = y →
      ∃ m, (update_film s film_id t d y).2 = .error (.conflict m)) ∧
    ((∃ f ∈ s.films, f.id = film_id) →
      (∀ g ∈ s.films, ¬(g.title = t ∧ g.year = y)) →
      (update_film s film_id t d y).2 = .ok () ∧
      (update_film s film_id t d y).1.films =
        s.films.map (fun f =>
          if f.id == film_id then ⟨f.id, t, d, y⟩ else f) ∧
      (∀ f ∈ s.films, f.id = film_id →
        (⟨film_id, t, d, y⟩ : Film) ∈ (update_film s film_id t d y).1.films)) := by
  refine ⟨?_, ?_, ?_, ?_, ?_, ?_, ?_, ?_⟩
  · intro hall
    have hnone : s.actors.find? (fun a => a.id == actor_id) = none :=
      List.find?_eq_none.mpr (fun a ha hp => hall a ha (by simpa using hp))
    unfold update_actor
    rw [hnone]
  · rintro ⟨a, ha, hid⟩
    have hsome : (s.actors.find? (fun x => x.id == actor_id)).isSome = true :=
      List.find?_isSome.mpr ⟨a, ha, by simp [hid]⟩
    obtain ⟨a0, hfind⟩ := Option.isSome_iff_exists.mp hsome
    constructor
    · rintro ⟨m, hm⟩
      cases hconf : s.actors.find? (fun x =>
          x.first_name == fn && x.last_name == ln && x.age == age) with
      | some b =>
          exact ⟨b, List.mem_of_find?_eq_some hconf, by
            simpa [and_assoc] using List.find?_some hconf⟩
      | none =>
          unfold update_actor at hm
          rw [hfind, hconf] at hm
          cases hm
    · rintro ⟨b, hb, hfn, hln, hage⟩
      have hconf : (s.actors.find? (fun x =>
          x.first_name == fn && x.last_name == ln && x.age == age)).isSome = true :=
        List.find?_isSome.mpr ⟨b, hb, by simp [hfn, hln, hage]⟩
      obtain ⟨b0, hconffind⟩ := Option.isSome_iff_exists.mp hconf
      refine ⟨"Actor \"" ++ fn ++ " " ++ ln ++ "\" with age " ++
        toString age ++ " already exists!", ?_⟩
      unfold update_actor
      rw [hfind, hconffind]
  · intro a ha hid hfn hln hage
    have hsome : (s.actors.find? (fun x => x.id == actor_id)).isSome = true :=
      List.find?_isSome.mpr ⟨a, ha, by simp [hid]⟩
    obtain ⟨a0, hfind⟩ := Option.isSome_iff_exists.mp hsome
    have hconf : (s.actors.find? (fun x =>
        x.first_name == fn && x.last_name == ln && x.age == age)).isSome = true :=
      List.find?_isSome.mpr ⟨a, ha, by simp [hfn, hln, hage]⟩
    obtain ⟨b0, hconffind⟩ := Option.isSome_iff_exists.mp hconf
    refine ⟨"Actor \"" ++ fn ++ " " ++ ln ++ "\" with age " ++
      toString age ++ " already exists!", ?_⟩
    unfold update_actor
    rw [hfind, hconffind]
  · rintro ⟨a, ha, hid⟩ hall
    have hsome : (s.actors.find? (fun x => x.id == actor_id)).isSome = true :=
      List.find?_isSome.mpr ⟨a, ha, by simp [hid]⟩
    obtain ⟨a0, hfind⟩ := Option.isSome_iff_exists.mp hsome
    have hnone : s.actors.find? (fun x =>
        x.first_name == fn && x.last_name == ln && x.age == age) = none :=
      List.find?_eq_none.mpr (fun x hx hp =>
        hall x hx (by simpa [and_assoc] using hp))
    unfold update_actor
    rw [hfind, hnone]
    refine ⟨rfl, rfl, ?_⟩
    intro x hx hxid
    refine List.mem_map.mpr ⟨x, hx, ?_⟩
    simp [hxid]
  · intro hall
    have hnone : s.films.find? (fun f => f.id == film_id) = none :=
      List.find?_eq_none.mpr (fun f hf hp => hall f hf (by simpa using hp))
    unfold update_film
    rw [hnone]
  · rintro ⟨f, hf, hid⟩
    have hsome : (s.films.find? (fun x => x.id == film_id)).isSome = true :=
      List.find?_isSome.mpr ⟨f, hf, by simp [hid]⟩
    obtain ⟨f0, hfind⟩ := Option.isSome_iff_exists.mp hsome
    constructor
    · rintro ⟨m, hm⟩
      cases hconf : s.films.find? (fun x => x.title == t && x.year == y) with
      | some g =>
          exact ⟨g, List.mem_of_find?_eq_some hconf, by
            simpa using List.find?_some hconf⟩
      | none =>
          unfold update_film at hm
          rw [hfind, hconf] at hm
          cases hm
    · rintro ⟨g, hg, ht, hy⟩
      have hconf : (s.films.find? (fun x =>
          x.title == t && x.year == y)).isSome = true :=
        List.find?_isSome.mpr ⟨g, hg, by simp [ht, hy]⟩
      obtain ⟨g0, hconffind⟩ := Option.isSome_iff_exists.mp hconf
      refine ⟨"Film with title: \"" ++ t ++ "\" with " ++
        toString y ++ " already exists!", ?_⟩
      unfold update_film
      rw [hfind, hconffind]
  · intro f hf hid ht hy
    have hsome : (s.films.find? (fun x => x.id == film_id)).isSome = true :=
      List.find?_isSome.mpr ⟨f, hf, by simp [hid]⟩
    obtain ⟨f0, hfind⟩ := Option.isSome_iff_exists.mp hsome
    have hconf : (s.films.find? (fun x =>
        x.title == t && x.year == y)).isSome = true :=
      List.find?_isSome.mpr ⟨f, hf, by simp [ht, hy]⟩
    obtain ⟨g0, hconffind⟩ := Option.isSome_iff_exists.mp hconf
    refine ⟨"Film with title: \"" ++ t ++ "\" with " ++
      toString y ++ " already exists!", ?_⟩
    unfold update_film
    rw [hfind, hconffind]
  · rintro ⟨f, hf, hid⟩ hall
    have hsome : (s.films.find? (fun x => x.id == film_id)).isSome = true :=
      List.find?_isSome.mpr ⟨f, hf, by simp [hid]⟩
    obtain ⟨f0, hfind⟩ := Option.isSome_iff_exists.mp hsome
    have hnone : s.films.find? (fun x => x.title == t && x.year == y) = none :=
      List.find?_eq_none.mpr (fun x hx hp => hall x hx (by simpa using hp))
    unfold update_film
    rw [hfind, hnone]
    refine ⟨rfl, rfl, ?_⟩
    intro x hx hxid
    refine List.mem_map.mpr ⟨x, hx, ?_⟩
    simp [hxid]

/-- Store for the C4 witness. -/
def C4Store : Store :=
  ⟨[⟨0, "Ann", "A", 30⟩, ⟨1, "Bob", "B", 40⟩],
   [⟨2, "F1", "d1", 2000⟩, ⟨3, "F2", "d2", 2001⟩], [], 4⟩

theorem update_uniqueness_spec_witness :
    update_actor C4Store 9 "X" "Y" 50 =
      (C4Store, .error (.notFound (actorNotFoundMsg 9))) ∧
    (∃ m, (update_actor C4Store 0 "Ann" "A" 30).2 = .error (.conflict m)) ∧
    ((update_actor C4Store 0 "New" "N" 35).2 = .ok () ∧
      (update_actor C4Store 0 "New" "N" 35).1.actors =
        C4Store.actors.map (fun a =>
          if a.id == 0 then ⟨a.id, "New", "N", 35⟩ else a) ∧
      (∀ a ∈ C4Store.actors, a.id = 0 →
        (⟨0, "New", "N", 35⟩ : Actor) ∈ (update_actor C4Store 0 "New" "N" 35).1.actors)) ∧
    (∃ m, (update_film C4Store 2 "F1" "dx" 2000).2 = .error (.conflict m)) ∧
    ((update_film C4Store 2 "F9" "dx" 2005).2 = .ok () ∧
      (update_film C4Store 2 "F9" "dx" 2005).1.films =
        C4Store.films.map (fun f =>
          if f.id == 2 then ⟨f.id, "F9", "dx", 2005⟩ else f) ∧
      (∀ f ∈ C4Store.films, f.id = 2 →
        (⟨2, "F9", "dx", 2005⟩ : Film) ∈ (update_film C4Store 2 "F9" "dx" 2005).1.films)) :=
  ⟨(update_uniqueness_spec C4Store 9 2 "X" "Y" 50 "F" "d" 2000).1 (by decide),
   (update_uniqueness_spec C4Store 0 2 "Ann" "A" 30 "F" "d" 2000).2.2.1
     ⟨0, "Ann", "A", 30⟩ (by decide) rfl rfl rfl rfl,
   (update_uniqueness_spec C4Store 0 2 "New" "N" 35 "F" "d" 2000).2.2.2.1
     (by decide) (by decide),
   (update_uniqueness_spec C4Store 0 2 "X" "Y" 50 "F1" "dx" 2000).2.2.2.2.2.2.1
     ⟨2, "F1", "d1", 2000⟩ (by decide) rfl rfl rfl,
   (update_uniqueness_spec C4Store 0 2 "X" "Y" 50 "F9" "dx" 2005).2.2.2.2.2.2.2
     (by decide) (by decide)⟩


/-- Claim C10: a successful `update_actor` mutates only the actor table, and
there only the row whose id was given: the film and association tables and
the id counter are unchanged, the actor table keeps its length, every row
holding an actor of a different id is unchanged at its position, and the row
of the target id keeps its id while its three payload fields are replaced.
`update_film` symmetrically touches only the targeted film row. -/
theorem update_frame_spec (s : Store) (actor_id film_id : Nat)
    (fn ln : String) (age : Nat) (t d : String) (y : Nat) :
    ((update_actor s actor_id fn ln age).2 = .ok () →
      (update_actor s actor_id fn ln age).1.films = s.films ∧
      (update_actor s actor_id fn ln age).1.filmActors = s.filmActors ∧
      (update_actor s actor_id fn ln age).1.nextId = s.nextId ∧
      (update_actor s actor_id fn ln age).1.actors.length = s.actors.length ∧
      (∀ (i : Nat) (a : Actor), s.actors[i]? = some a →
        (a.id ≠ actor_id →
          (update_actor s actor_id fn ln age).1.actors[i]? = some a) ∧
        (a.id = actor_id →
          (update_actor s actor_id fn ln age).1.actors[i]? =
            some ⟨a.id, fn, ln, age⟩))) ∧
    ((update_film s film_id t d y).2 = .ok () →
      (update_film s film_id t d y).1.actors = s.actors ∧
      (update_film s film_id t d y).1.filmActors = s.filmActors ∧
      (update_film s film_id t d y).1.nextId = s.nextId ∧
      (update_film s film_id t d y).1.films.length = s.films.length ∧
      (∀ (i : Nat) (f : Film), s.films[i]? = some f →
        (f.id ≠ film_id →
          (update_film s film_id t d y).1.films[i]? = some f) ∧
        (f.id = film_id →
          (update_film s film_id t d y).1.films[i]? =
            some ⟨f.id, t, d, y⟩))) := by
  constructor
  · intro hok
    unfold update_actor at hok ⊢
    cases hfind : s.actors.find? (fun a => a.id == actor_id) with
    | none => rw [hfind] at hok; simp at hok
    | some a0 =>
        rw [hfind] at hok
        cases hconf : s.actors.find? (fun a =>
            a.first_name == fn && a.last_name == ln && a.age == age) with
        | some b0 => rw [hconf] at hok; simp at hok
        | none =>
            refine ⟨rfl, rfl, rfl, by simp, ?_⟩
            intro i a hia
            constructor
            · intro hne
              show (s.actors.map (fun a =>
                if a.id == actor_id then ⟨a.id, fn, ln, age⟩ else a))[i]? = some a
              simp only [List.getElem?_map, hia, Option.map_some]
              simp [hne]
            · intro heq
              show (s.actors.map (fun a =>
                if a.id == actor_id then ⟨a.id, fn, ln, age⟩ else a))[i]? =
                  some ⟨a.id, fn, ln, age⟩
              simp only [List.getElem?_map, hia, Option.map_some]
              simp [heq]
  · intro hok
    unfold update_film at hok ⊢
    cases hfind : s.films.find? (fun f => f.id == film_id) with
    | none => rw [hfind] at hok; simp at hok
    | some f0 =>
        rw [hfind] at hok
        cases hconf : s.films.find? (fun f => f.title == t && f.year == y) with
        | some g0 => rw [hconf] at hok; simp at hok
        | none =>
            refine ⟨rfl, rfl, rfl, by simp, ?_⟩
            intro i f hif
            constructor
            · intro hne
              show (s.films.map (fun f =>
                if f.id == film_id then ⟨f.id, t, d, y⟩ else f))[i]? = some f
              simp only [List.getElem?_map, hif, Option.map_some]
              simp [hne]
            · intro heq
              show (s.films.map (fun f =>
                if f.id == film_id then ⟨f.id, t, d, y⟩ else f))[i]? =
                  some ⟨f.id, t, d, y⟩
              simp only [List.getElem?_map, hif, Option.map_some]
              simp [heq]

theorem update_frame_spec_witness :
    ((update_actor C4Store 0 "New" "N" 35).1.films = C4Store.films ∧
      (update_actor C4Store 0 "New" "N" 35).1.filmActors = C4Store.filmActors ∧
      (update_actor C4Store 0 "New" "N" 35).1.nextId = C4Store.nextId ∧
      (update_actor C4Store 0 "New" "N" 35).1.actors.length = C4Store.actors.length ∧
      (∀ (i : Nat) (a : Actor), C4Store.actors[i]? = some a →
        (a.id ≠ 0 → (update_actor C4Store 0 "New" "N" 35).1.actors[i]? = some a) ∧
        (a.id = 0 →
          (update_actor C4Store 0 "New" "N" 35).1.actors[i]? =
            some ⟨a.id, "New", "N", 35⟩))) ∧
    ((update_film C4Store 2 "F9" "dx" 2005).1.actors = C4Store.actors ∧
      (update_film C4Store 2 "F9" "dx" 2005).1.filmActors = C4Store.filmActors ∧
      (update_film C4Store 2 "F9" "dx" 2005).1.nextId = C4Store.nextId ∧
      (update_film C4Store 2 "F9" "dx" 2005).1.films.length = C4Store.films.length ∧
      (∀ (i : Nat) (f : Film), C4Store.films[i]? = some f →
        (f.id ≠ 2 → (update_film C4Store 2 "F9" "dx" 2005).1.films[i]? = some f) ∧
        (f.id = 2 →
          (update_film C4Store 2 "F9" "dx" 2005).1.films[i]? =
            some ⟨f.id, "F9", "dx", 2005⟩))) :=
  ⟨(update_frame_spec C4Store 0 2 "New" "N" 35 "F9" "dx" 2005).1 rfl,
   (update_frame_spec C4Store 0 2 "New" "N" 35 "F9" "dx" 2005).2 rfl⟩

/-- With unique film primary keys, looking a film up by the id of a member
returns exactly that member. -/
theorem film_find?_eq_of_nodup (films : List Film) (g : Film) (v : Nat)
    (hnd : (films.map Film.id).Nodup) (hg : g ∈ films) (hv : g.id = v) :
    films.find? (fun f => f.id == v) = some g := by
  induction films with
  | nil => cases hg
  | cons x xs ih =>
      simp only [List.map_cons, List.nodup_cons] at hnd
      rw [List.find?_cons]
      cases hx : (x.id == v) with
      | false =>
          have hxv : ¬(x.id = v) := by simpa using hx
          rcases List.mem_cons.mp hg with rfl | hgxs
          · exact absurd hv hxv
          · exact ih hnd.2 hgxs
      | true =>
          have hxv : x.id = v := by simpa using hx
          rcases List.mem_cons.mp hg with rfl | hgxs
          · rfl
          · exact absurd (List.mem_map.mpr ⟨g, hgxs, by rw [hv, ← hxv]⟩) hnd.1

/-- A film linked to an actor contributes its title to the actor's film
titles (assuming unique film primary keys). -/
theorem title_mem_actorFilmTitles (s : Store) (aid : Nat) (fa : FilmActor)
    (g : Film) (hfa : fa ∈ s.filmActors) (hg : g ∈ s.films)
    (ha : fa.actor_id = aid) (hid : fa.film_id = g.id)
    (hnd : (s.films.map Film.id).Nodup) :
    g.title ∈ actorFilmTitles s aid := by
  unfold actorFilmTitles
  refine List.mem_map.mpr ⟨g, ?_, rfl⟩
  refine List.mem_filterMap.mpr ⟨fa, List.mem_filter.mpr ⟨hfa, by simp [ha]⟩, ?_⟩
  exact film_find?_eq_of_nodup s.films g fa.film_id hnd hg hid.symm

/-- Claim C3: `add_film` (the spec's `add_film_for_actor`) fails with
`NotFound` when the actor reference does not resolve; when it resolves, it
fails with `Conflict` exactly when `t` is already among that specific
actor's film titles — ignoring year and ignoring other actors' films — and
leaves the store unchanged in that case; otherwise it succeeds, resolving
the film by `(title, year)` lookup-or-insert and linking the actor to it.
In particular an actor linked to a film titled `t` of any year conflicts
with a new film titled `t` of any other year. -/
theorem add_film_for_actor_spec (s : Store) (fn ln : String) (age : Nat)
    (t d : String) (y : Nat) :
    ((∀ a ∈ s.actors, ¬(a.first_name = fn ∧ a.last_name = ln ∧ a.age = age)) →
      add_film s fn ln age t d y =
        (s, .error (.notFound ("Actor with name \"" ++ fn ++ "\" not found")))) ∧
    (∀ actor, s.actors.find? (fun a =>
        a.first_name == fn && a.last_name == ln && a.age == age) = some actor →
      ((∃ m, (add_film s fn ln age t d y).2 = .error (.conflict m)) ↔
        t ∈ actorFilmTitles s actor.id) ∧
      (t ∈ actorFilmTitles s actor.id → (add_film s fn ln age t d y).1 = s) ∧
      (t ∉ actorFilmTitles s actor.id →
        (add_film s fn ln age t d y).2 = .ok () ∧
        (∀ film, s.films.find? (fun f => f.title == t && f.year == y) = some film →
          (add_film s fn ln age t d y).1 =
            { s with
                filmActors := s.filmActors ++ [⟨s.nextId, film.id, actor.id⟩],
                nextId := s.nextId + 1 }) ∧
        (s.films.find? (fun f => f.title == t && f.year == y) = none →
          (add_film s fn ln age t d y).1 =
            { s with
                films := s.films ++ [⟨s.nextId, t, d, y⟩],
                filmActors := s.filmActors ++ [⟨s.nextId + 1, s.nextId, actor.id⟩],
                nextId := s.nextId + 2 })) ∧
      (∀ fa ∈ s.filmActors, ∀ g ∈ s.films,
        fa.actor_id = actor.id → fa.film_id = g.id → g.title = t →
        (s.films.map Film.id).Nodup →
        ∃ m, (add_film s fn ln age t d y).2 = .error (.conflict m))) := by
  constructor
  · intro hall
    have hnone : s.actors.find? (fun a =>
        a.first_name == fn && a.last_name == ln && a.age == age) = none :=
      List.find?_eq_none.mpr (fun a ha hp =>
        hall a ha (by simpa [and_assoc] using hp))
    unfold add_film
    rw [hnone]
  · intro actor hfind
    refine ⟨?_, ?_, ?_, ?_⟩
    · constructor
      · rintro ⟨m, hm⟩
        by_contra ht
        unfold add_film at hm
        rw [hfind] at hm
        simp only [] at hm
        rw [if_neg ht] at hm
        cases hfilm : s.films.find? (fun f => f.title == t && f.year == y) with
        | some film => rw [hfilm] at hm; cases hm
        | none => rw [hfilm] at hm; cases hm
      · intro ht
        refine ⟨"This actor has already a film \"" ++ t ++ "\" in " ++
          toString y ++ "!", ?_⟩
        unfold add_film
        rw [hfind]
        simp only []
        rw [if_pos ht]
    · intro ht
      unfold add_film
      rw [hfind]
      simp only []
      rw [if_pos ht]
    · intro ht
      refine ⟨?_, ?_, ?_⟩
      · unfold add_film
        rw [hfind]
        simp only []
        rw [if_neg ht]
        cases hfilm : s.films.find? (fun f => f.title == t && f.year == y) with
        | some film => rfl
        | none => rfl
      · intro film hfilm
        unfold add_film
        rw [hfind]
        simp only []
        rw [if_neg ht, hfilm]
      · intro hfilm
        unfold add_film
        rw [hfind]
        simp only []
        rw [if_neg ht, hfilm]
    · intro fa hfa g hg ha hid hgt hnd
      have ht : t ∈ actorFilmTitles s actor.id :=
        hgt ▸ title_mem_actorFilmTitles s actor.id fa g hfa hg ha hid hnd
      refine ⟨"This actor has already a film \"" ++ t ++ "\" in " ++
        toString y ++ "!", ?_⟩
      unfold add_film
      rw [hfind]
      simp only []
      rw [if_pos ht]

/-- Store for the C3 witness: actor 0 linked to the film "X" of year 1994. -/
def C3Store : Store :=
  ⟨[⟨0, "Tom", "Hanks", 60⟩], [⟨1, "X", "d", 1994⟩], [⟨2, 1, 0⟩], 3⟩

theorem add_film_for_actor_spec_witness :
    add_film C3Store "No" "One" 5 "T" "dd" 2000 =
      (C3Store, .error (.notFound ("Actor with name \"" ++ "No" ++ "\" not found"))) ∧
    (∃ m, (add_film C3Store "Tom" "Hanks" 60 "X" "dd" 2001).2 = .error (.conflict m)) ∧
    ((add_film C3Store "Tom" "Hanks" 60 "Y" "dy" 2005).2 = .ok () ∧
      (add_film C3Store "Tom" "Hanks" 60 "Y" "dy" 2005).1 =
        { C3Store with
            films := C3Store.films ++ [⟨C3Store.nextId, "Y", "dy", 2005⟩],
            filmActors := C3Store.filmActors ++
              [⟨C3Store.nextId + 1, C3Store.nextId, (⟨0, "Tom", "Hanks", 60⟩ : Actor).id⟩],
            nextId := C3Store.nextId + 2 }) :=
  ⟨(add_film_for_actor_spec C3Store "No" "One" 5 "T" "dd" 2000).1 (by decide),
   ((add_film_for_actor_spec C3Store "Tom" "Hanks" 60 "X" "dd" 2001).2
       ⟨0, "Tom", "Hanks", 60⟩ rfl).2.2.2
     ⟨2, 1, 0⟩ (by decide) ⟨1, "X", "d", 1994⟩ (by decide) rfl rfl rfl (by decide),
   ⟨(((add_film_for_actor_spec C3Store "Tom" "Hanks" 60 "Y" "dy" 2005).2
        ⟨0, "Tom", "Hanks", 60⟩ rfl).2.2.1 (by decide)).1,
    (((add_film_for_actor_spec C3Store "Tom" "Hanks" 60 "Y" "dy" 2005).2
        ⟨0, "Tom", "Hanks", 60⟩ rfl).2.2.1 (by decide)).2.2 rfl⟩⟩

/-- Claim C9: in `add_film`, whenever the actor-scoped title conflict check
passes, the `(film_id, actor_id)` pair about to be inserted — the id of the
film resolved by the `(title, year)` lookup, or the fresh id of the film
about to be created — does not already exist in the association table; hence
within one unit of work the `film_actor_combines_unique` violation branch of
the insert is unreachable, and pair-uniqueness is preserved by the call. -/
theorem add_film_pair_unreachable (s : Store) (actor : Actor)
    (fn ln : String) (age : Nat) (t d : String) (y : Nat)
    (hWF : s.WF)
    (hfind : s.actors.find? (fun a =>
        a.first_name == fn && a.last_name == ln && a.age == age) = some actor)
    (ht : t ∉ actorFilmTitles s actor.id) :
    (∀ film, s.films.find? (fun f => f.title == t && f.year == y) = some film →
      ∀ fa ∈ s.filmActors, ¬(fa.film_id = film.id ∧ fa.actor_id = actor.id)) ∧
    (s.films.find? (fun f => f.title == t && f.year == y) = none →
      ∀ fa ∈ s.filmActors, ¬(fa.film_id = s.nextId ∧ fa.actor_id = actor.id)) ∧
    ((add_film s fn ln age t d y).1.filmActors.map
      (fun fa => (fa.film_id, fa.actor_id))).Nodup := by
  obtain ⟨-, hfnd, -, hpairs, -, hfb, -, href, -⟩ := hWF
  have hfound : ∀ film, s.films.find? (fun f => f.title == t && f.year == y) = some film →
      ∀ fa ∈ s.filmActors, ¬(fa.film_id = film.id ∧ fa.actor_id = actor.id) := by
    intro film hfilm fa hfa hpair
    have hmem := List.mem_of_find?_eq_some hfilm
    have hty : film.title = t ∧ film.year = y := by
      simpa using List.find?_some hfilm
    exact ht (hty.1 ▸ title_mem_actorFilmTitles s actor.id fa film hfa hmem
      hpair.2 hpair.1 hfnd)
  have hfresh : ∀ fa ∈ s.filmActors, ¬(fa.film_id = s.nextId ∧ fa.actor_id = actor.id) := by
    intro fa hfa hpair
    obtain ⟨f, hf, hfid⟩ := href fa hfa
    have := hfb f hf
    omega
  refine ⟨hfound, fun _ => hfresh, ?_⟩
  unfold add_film
  rw [hfind]
  simp only []
  rw [if_neg ht]
  cases hfilm : s.films.find? (fun f => f.title == t && f.year == y) with
  | some film =>
      show ((s.filmActors ++ [(⟨s.nextId, film.id, actor.id⟩ : FilmActor)]).map
        (fun fa : FilmActor => (fa.film_id, fa.actor_id))).Nodup
      rw [List.map_append]
      refine List.nodup_append.mpr ⟨hpairs, by simp, ?_⟩
      intro p hp
      simp only [List.map_cons, List.map_nil, List.mem_singleton]
      obtain ⟨fa, hfa, rfl⟩ := List.mem_map.mp hp
      intro hcon
      have hcon2 : fa.film_id = film.id ∧ fa.actor_id = actor.id := by
        simpa [Prod.ext_iff] using hcon
      exact hfound film hfilm fa hfa hcon2
  | none =>
      show ((s.filmActors ++ [(⟨s.nextId + 1, s.nextId, actor.id⟩ : FilmActor)]).map
        (fun fa : FilmActor => (fa.film_id, fa.actor_id))).Nodup
      rw [List.map_append]
      refine List.nodup_append.mpr ⟨hpairs, by simp, ?_⟩
      intro p hp
      simp only [List.map_cons, List.map_nil, List.mem_singleton]
      obtain ⟨fa, hfa, rfl⟩ := List.mem_map.mp hp
      intro hcon
      have hcon2 : fa.film_id = s.nextId ∧ fa.actor_id = actor.id := by
        simpa [Prod.ext_iff] using hcon
      exact hfresh fa hfa hcon2

/-- Store for the C9 witness: actor 0 linked to film 2 only; film 3 exists
with no association. -/
def C9Store : Store :=
  ⟨[⟨0, "Tom", "Hanks", 60⟩, ⟨1, "Bob", "B", 40⟩],
   [⟨2, "X", "d", 1994⟩, ⟨3, "Z", "dz", 2000⟩], [⟨4, 2, 0⟩], 5⟩

theorem add_film_pair_unreachable_witness :
    (∀ fa ∈ C9Store.filmActors,
      ¬(fa.film_id = (⟨3, "Z", "dz", 2000⟩ : Film).id ∧
        fa.actor_id = (⟨0, "Tom", "Hanks", 60⟩ : Actor).id)) ∧
    (∀ fa ∈ C9Store.filmActors,
      ¬(fa.film_id = C9Store.nextId ∧
        fa.actor_id = (⟨0, "Tom", "Hanks", 60⟩ : Actor).id)) ∧
    ((add_film C9Store "Tom" "Hanks" 60 "Z" "dd" 2000).1.filmActors.map
      (fun fa => (fa.film_id, fa.actor_id))).Nodup :=
  ⟨(add_film_pair_unreachable C9Store ⟨0, "Tom", "Hanks", 60⟩ "Tom" "Hanks" 60
      "Z" "dd" 2000 (by decide) rfl (by decide)).1 ⟨3, "Z", "dz", 2000⟩ rfl,
   (add_film_pair_unreachable C9Store ⟨0, "Tom", "Hanks", 60⟩ "Tom" "Hanks" 60
      "W" "dw" 2001 (by decide) rfl (by decide)).2.1 rfl,
   (add_film_pair_unreachable C9Store ⟨0, "Tom", "Hanks", 60⟩ "Tom" "Hanks" 60
      "Z" "dd" 2000 (by decide) rfl (by decide)).2.2⟩

/-- Store for the C6 counterexample and witness: one film "T" of year 2000. -/
def C6Store : Store := ⟨[], [⟨0, "T", "d", 2000⟩], [], 1⟩

/-- Claim C6 counterexample: the film "T"/2000 is present in the store, yet
when the outbound `requests.get` raises a transport-level exception,
`get_rating_movie` propagates it (there is no `try/except` in `utils.py`)
and the film-detail flow fails instead of completing — refuting the claim
that *any* failure of the rating lookup, network failure included, is
normalized to an empty result and never propagated. -/
theorem rating_failure_propagates_cex :
    (∃ f ∈ C6Store.films, f.title = "T" ∧ f.year = 2000) ∧
    get_rating_movie HttpOutcome.connectionError =
      .error NetworkError.connectionError ∧
    film_detail C6Store "T" 2000 HttpOutcome.connectionError =
      .error (.uncaught NetworkError.connectionError) := by
  refine ⟨⟨⟨0, "T", "d", 2000⟩, by decide, rfl, rfl⟩, rfl, ?_⟩
  rfl

/-- Claim C6 amended: a non-success HTTP status is normalized by
`get_rating_movie` to `None`, and for every film present in the store the
detail flow completes successfully for *any HTTP response* (success or
non-success status, including a no-match body); but a transport-level
exception escaping `requests.get` is not caught and propagates, failing the
detail flow. -/
theorem rating_lookup_normalized (s : Store) (t : String) (y : Nat)
    (status : Nat) (body : MovieData) (film : Film)
    (hfind : s.films.find? (fun f => f.title == t && f.year == y) = some film) :
    (status ≠ OK → get_rating_movie (.response status body) = .ok none) ∧
    (∃ page, film_detail s t y (.response status body) = .ok page ∧
      page.film = film ∧ (status ≠ OK → page.movie_data = none)) ∧
    film_detail s t y .connectionError = .error (.uncaught .connectionError) := by
  refine ⟨?_, ?_, ?_⟩
  · intro hst
    unfold get_rating_movie
    simp only []
    rw [if_neg (by simpa using hst)]
  · refine ⟨⟨film,
      (s.filmActors.filter (fun fa => fa.film_id == film.id)).filterMap
        (fun fa => s.actors.find? (fun a => a.id == fa.actor_id)),
      if status == OK then some body else none⟩, ?_, rfl, ?_⟩
    · unfold film_detail
      rw [hfind]
      simp only [get_rating_movie]
      cases hs : (status == OK) with
      | false => rfl
      | true => rfl
    · intro hst
      show (if status == OK then some body else none) = none
      rw [if_neg (by simpa using hst)]
  · unfold film_detail
    rw [hfind]
    rfl

theorem rating_lookup_normalized_witness :
    (404 ≠ OK → get_rating_movie (.response 404 "nf") = .ok none) ∧
    (∃ page, film_detail C6Store "T" 2000 (.response 404 "nf") = .ok page ∧
      page.film = (⟨0, "T", "d", 2000⟩ : Film) ∧ (404 ≠ OK → page.movie_data = none)) ∧
    film_detail C6Store "T" 2000 .connectionError =
      .error (.uncaught .connectionError) :=
  rating_lookup_normalized C6Store "T" 2000 404 "nf" ⟨0, "T", "d", 2000⟩ rfl
